import Mathlib

/-!
Verification of the `barcoders` Code128 module (`src/sym/code128.rs`).

The Rust source is embedded shallowly: the `Unit` enum, the three
character tables, and the `Code128` methods (`new`, `parse`, `raw_data`,
`checksum_unit`, `checksum_encoding`, `unit_encoding`, `push_encoding`,
`payload`, `encode`) become Lean definitions.  The `panic!` branch of
`checksum_encoding` is modelled by `Option`, with `none` standing for a
panic and threaded through `payload` and `encode`.
-/

/-- Modelled from the spec: the repository's `error::Error` type lives outside
the provided sources; the spec names exactly two recoverable kinds,
`Error::Character` and `Error::Length`. -/
inductive Error where
  | Character
  | Length
deriving DecidableEq, Repr

/-- The `Unit` enum of `code128.rs`: a symbol tagged with its character set. -/
inductive Unit128 where
  | A (s : String)
  | B (s : String)
  | C (s : String)
deriving DecidableEq, Repr

/-- `CODE128_CHARS_A`: character-to-binary mapping for character-set A. -/
def CODE128_CHARS_A : List (String × List Nat) :=
  [("0", [1,0,1,0,0,1,1,0,1,1,0]),
   ("1", [1,1,0,1,0,0,1,0,1,0,1]),
   ("2", [1,0,1,1,0,0,1,0,1,0,1])]

/-- `CODE128_CHARS_B`: character-to-binary mapping for character-set B. -/
def CODE128_CHARS_B : List (String × List Nat) :=
  [("A", [1,0,1,0,0,1,1,0,1,1,0]),
   ("B", [1,1,0,1,0,0,1,0,1,0,1]),
   ("C", [1,0,1,1,0,0,1,0,1,0,1])]

/-- `CODE128_CHARS_C`: character-to-binary mapping for character-set C. -/
def CODE128_CHARS_C : List (String × List Nat) :=
  [("00", [1,0,1,0,0,1,1,0,1,1,0]),
   ("01", [1,1,0,1,0,0,1,0,1,0,1]),
   ("02", [1,0,1,1,0,0,1,0,1,0,1])]

/-- Whether a `Unit128` symbol is a key of the table of its tagged set. -/
def Unit128.inTable : Unit128 → Bool
  | .A s => (CODE128_CHARS_A.map Prod.fst).contains s
  | .B s => (CODE128_CHARS_B.map Prod.fst).contains s
  | .C s => (CODE128_CHARS_C.map Prod.fst).contains s

/-- The `Code128` barcode type: a wrapper around a vector of units. -/
structure Code128 where
  units : List Unit128
deriving DecidableEq, Repr

namespace Code128

/-- `Code128::parse`: as written in the source it ignores its input and
returns `Ok(vec![Unit::A("1"), Unit::A("2")])`. -/
def parse (chars : List Char) : Except Error (List Unit128) :=
  Except.ok [Unit128.A "1", Unit128.A "2"]

/-- `Code128::new`: parses the characters of the input and wraps the result. -/
def new (data : String) : Except Error Code128 :=
  match parse data.toList with
  | Except.ok u => Except.ok ⟨u⟩
  | Except.error e => Except.error e

/-- `Code128::raw_data`: the tokenized data stored in the barcode. -/
def raw_data (c : Code128) : List Unit128 :=
  c.units

/-- `Code128::checksum_unit`: as written in the source it returns the constant
`Some(Unit::C("23"))`. -/
def checksum_unit (c : Code128) : Option Unit128 :=
  some (Unit128.C "23")

/-- `Code128::unit_encoding`: as written in the source it returns the constant
pattern `[1,1,1,0,0,0,1,1,1,0,0]` for every unit. -/
def unit_encoding (c : Code128) (u : Unit128) : List Nat :=
  [1,1,1,0,0,0,1,1,1,0,0]

/-- `Code128::checksum_encoding`: encodes the checksum unit; the `panic!`
branch on `None` is modelled as `none`. -/
def checksum_encoding (c : Code128) : Option (List Nat) :=
  match c.checksum_unit with
  | some u => some (c.unit_encoding u)
  | none => none

/-- `Code128::push_encoding`: appends an 11-module pattern and then a 0. -/
def push_encoding (into : List Nat) (f : List Nat) : List Nat :=
  into ++ f ++ [0]

/-- `Code128::payload`: starts from `vec![0]`, pushes every unit's encoding,
then the checksum encoding.  `none` propagates a checksum panic. -/
def payload (c : Code128) : Option (List Nat) :=
  let enc := c.units.foldl (fun acc u => push_encoding acc (c.unit_encoding u)) [0]
  match c.checksum_encoding with
  | some ce => some (push_encoding enc ce)
  | none => none

/-- Modelled from the spec: `sym::helpers::join_slices` belongs to this
repository but is outside the provided sources; per the spec's encoder
contract it joins the given slices into one concatenated bit sequence. -/
def join_slices (slices : List (List Nat)) : List Nat :=
  slices.flatten

/-- `Code128::encode`: joins the payload slice into the final bit vector. -/
def encode (c : Code128) : Option (List Nat) :=
  match c.payload with
  | some p => some (join_slices [p])
  | none => none

end Code128

/-- Claim C1 (refuted by the code): at the accepted input "12120" the encoded
bit vector has 37 elements: a leading 0, then for each of the two fixed data
units and the checksum an 11-module pattern followed by a pushed 0 separator,
with no start, stop or termination pattern; the claimed formula demands
11*(1+2+0+1)+13+1 = 58 modules with no separators. -/
theorem encode_length_is_37_not_58 :
    Code128.new "12120" = Except.ok ⟨[Unit128.A "1", Unit128.A "2"]⟩ ∧
    (Code128.encode ⟨[Unit128.A "1", Unit128.A "2"]⟩).map List.length = some 37 ∧
    37 ≠ 11 * (1 + 2 + 0 + 1) + 13 + 1 :=
  ⟨rfl, rfl, by decide⟩

/-- Claim C2 (refuted by the code): `checksum_unit` returns the constant
`Some(Unit::C("23"))` for every barcode, ignoring the units and their
positions, so it does not implement the weighted modulo-103 formula. -/
theorem checksum_unit_is_constant :
    ∀ c : Code128, Code128.checksum_unit c = some (Unit128.C "23") :=
  fun _ => rfl

/-- Claim C3 (refuted by the code): tokenizing the directive-laden input
yields the fixed units A("1"), A("2") rather than A("H"), A("E"), C("12"),
C("34"). -/
theorem parse_ignores_directives :
    (Code128.new "\\aHE\\c1234").map Code128.raw_data
      = Except.ok [Unit128.A "1", Unit128.A "2"] ∧
    ([Unit128.A "1", Unit128.A "2"] : List Unit128)
      ≠ [Unit128.A "H", Unit128.A "E", Unit128.C "12", Unit128.C "34"] :=
  ⟨rfl, by decide⟩

/-- Claim C4 (refuted by the code): the empty input is accepted with the
fixed unit vector, not rejected with `Error::Length`. -/
theorem empty_input_is_ok :
    Code128.new "" = Except.ok ⟨[Unit128.A "1", Unit128.A "2"]⟩ ∧
    Code128.new "" ≠ Except.error Error.Length :=
  ⟨rfl, fun h => nomatch h⟩

/-- Claim C5 (refuted by the code): the set-C input with an odd number of
trailing digits is accepted, not rejected with `Error::Character`. -/
theorem setC_odd_digits_is_ok :
    Code128.new "\\c123" = Except.ok ⟨[Unit128.A "1", Unit128.A "2"]⟩ ∧
    Code128.new "\\c123" ≠ Except.error Error.Character :=
  ⟨rfl, fun h => nomatch h⟩

/-- Claim C6 (refuted by the code): a lone trailing backslash is accepted
rather than rejected with `Error::Character`, and no literal-backslash unit
is ever produced. -/
theorem lone_backslash_is_ok :
    Code128.new "\\" = Except.ok ⟨[Unit128.A "1", Unit128.A "2"]⟩ ∧
    Code128.new "\\" ≠ Except.error Error.Character ∧
    (Unit128.A "\\") ∉ Code128.raw_data ⟨[Unit128.A "1", Unit128.A "2"]⟩ :=
  ⟨rfl, (fun h => nomatch h), by decide⟩

/-- Claim C7 counterexample: the barcode built from "12120" reports the
checksum unit C("23"), whose symbol "23" is not a key of `CODE128_CHARS_C`,
so not every produced unit is in its set's table. -/
theorem checksum_unit_not_in_table :
    Code128.new "12120" = Except.ok ⟨[Unit128.A "1", Unit128.A "2"]⟩ ∧
    Code128.checksum_unit ⟨[Unit128.A "1", Unit128.A "2"]⟩ = some (Unit128.C "23") ∧
    (Unit128.C "23").inTable = false :=
  ⟨rfl, rfl, by decide⟩

/-- Claim C7 (amended): every unit in the raw data of a successfully
constructed barcode has its symbol as a key in the table of its tagged set;
the checksum unit C("23") is excluded, as it violates the invariant. -/
theorem raw_data_units_in_table (s : String) (c : Code128)
    (h : Code128.new s = Except.ok c) :
    (Code128.raw_data c).all Unit128.inTable = true := by
  simp only [Code128.new, Code128.parse] at h
  cases h
  decide

/-- Witness for the amended claim C7, at the input "12120". -/
theorem raw_data_units_in_table_witness :
    (Code128.raw_data ⟨[Unit128.A "1", Unit128.A "2"]⟩).all Unit128.inTable = true :=
  raw_data_units_in_table "12120" ⟨[Unit128.A "1", Unit128.A "2"]⟩ rfl

/-- Claim C8: `Code128::new` succeeds on every input string, always returning
the same fixed barcode; `parse` has no error path. -/
theorem new_always_ok :
    ∀ s : String, Code128.new s = Except.ok ⟨[Unit128.A "1", Unit128.A "2"]⟩ :=
  fun _ => rfl

/-- Claim C9: for every accepted input, `raw_data` is exactly
[A("1"), A("2")] and `encode` is the same fixed 37-element bit vector,
independent of the input text. -/
theorem output_independent_of_input (s : String) (c : Code128)
    (h : Code128.new s = Except.ok c) :
    Code128.raw_data c = [Unit128.A "1", Unit128.A "2"] ∧
    Code128.encode c = some [0,1,1,1,0,0,0,1,1,1,0,0,0,1,1,1,0,0,0,1,1,1,0,0,0,1,1,1,0,0,0,1,1,1,0,0,0] := by
  simp only [Code128.new, Code128.parse] at h
  cases h
  exact ⟨rfl, rfl⟩

/-- Witness for claim C9, at the input "hello". -/
theorem output_independent_of_input_witness :
    Code128.raw_data ⟨[Unit128.A "1", Unit128.A "2"]⟩ = [Unit128.A "1", Unit128.A "2"] ∧
    Code128.encode ⟨[Unit128.A "1", Unit128.A "2"]⟩ = some [0,1,1,1,0,0,0,1,1,1,0,0,0,1,1,1,0,0,0,1,1,1,0,0,0,1,1,1,0,0,0,1,1,1,0,0,0] :=
  output_independent_of_input "hello" ⟨[Unit128.A "1", Unit128.A "2"]⟩ rfl

/-- Claim C10: `checksum_unit` always returns `Some`, so the panic branch of
`checksum_encoding` (modelled as `none`) is unreachable and `encode` always
produces a value. -/
theorem encode_never_panics (c : Code128) :
    (Code128.checksum_unit c).isSome = true ∧
    Code128.checksum_encoding c = some [1,1,1,0,0,0,1,1,1,0,0] ∧
    (Code128.encode c).isSome = true :=
  ⟨rfl, rfl, rfl⟩
